import Mathlib

/-!
Shallow embedding of the access-control and resource-lifecycle core of the
gdg-ressources-hub backend (Express + Mongoose + Cloudinary), translated from:
  - src/backend/src/controllers/resourceController.js
  - src/backend/src/middleware/authMiddleware.js (protect / restrictTo)
  - src/backend/src/routes/resourceRoutes.js, folderRoutes.js
  - src/backend/src/models/folder.js (incl. the compound unique index)
  - folderController (createFolder / deleteFolder) and
    departmentController (deleteDepartment) from the repository.

Modelling conventions:
  - Mongo ObjectIds are `Nat`; each collection is a `List` of records,
    `findById` is `List.find?` on the id field, and single-document updates
    map a field-preserving function over the records with the matching id.
  - Object storage (Cloudinary) is a list of stored publicIds (`St.cloud`);
    `upload_stream` outcomes and `uploader.destroy` outcomes are passed in
    as explicit oracle parameters (`Except Unit UploadRes`, `Bool`), since
    they are external effects.
  - HTTP responses are encoded by their status code or by a small result
    inductive carrying exactly the data the JSON payload carries.
-/

namespace GdgHub

/-- Roles carried by the JWT / `req.user.role` in authMiddleware.js. -/
inductive Role where
  | visitor
  | member
  | comanager
deriving DecidableEq, Repr

/-- The authenticated identity attached by the `protect` middleware
(`req.user`): the user id and the (token-derived) role. -/
structure Actor where
  uid : Nat
  role : Role
deriving DecidableEq, Repr

/-- An embedded sub-file of a Resource (`resource.files[]` entries):
`{_id, url, publicId, format, size}`. `publicId` is optional (external
links stored as sub-files have none). -/
structure FileEntry where
  fid : Nat
  url : String
  publicId : Option String
  format : String
  size : Nat
deriving DecidableEq, Repr

/-- A Resource document (models/Resource.js as used by
resourceController.js): soft-delete flag `isActive`, counters, the
`favoritedBy` array of user ids, and the embedded `files` list. -/
structure Resource where
  rid : Nat
  title : String
  description : String
  rtype : String
  department : Nat
  folder : Option Nat
  uploadedBy : Option Nat
  url : String
  publicId : Option String
  format : Option String
  size : Nat
  linkType : Option String
  tags : List String
  contributors : List String
  views : Nat
  downloads : Nat
  favoritedBy : List Nat
  files : List FileEntry
  isActive : Bool
deriving DecidableEq, Repr

/-- A Folder document (models/folder.js): name, owning department,
denormalized `resourceCount`, soft-delete flag. Counters are `Int`
because Mongo `$inc` has no lower bound. -/
structure Folder where
  fid : Nat
  name : String
  department : Nat
  resourceCount : Int
  isActive : Bool
deriving DecidableEq, Repr

/-- A Department document (models/Department.js): denormalized
`folderCount`/`resourceCount` and soft-delete flag. -/
structure Department where
  did : Nat
  name : String
  folderCount : Int
  resourceCount : Int
  isActive : Bool
deriving DecidableEq, Repr

/-- The shared mutable state: the three Mongo collections plus the set of
publicIds currently held in object storage (Cloudinary). -/
structure St where
  departments : List Department
  folders : List Folder
  resources : List Resource
  cloud : List String
deriving DecidableEq, Repr

/-- The result of a successful Cloudinary `upload_stream` call:
`{secure_url, public_id, format, bytes}`. -/
structure UploadRes where
  secureUrl : String
  publicId : String
  format : String
  bytes : Nat
deriving DecidableEq, Repr

/-- `Resource.findById` — `List.find?` on the id field. -/
def findResource (rid : Nat) (st : St) : Option Resource :=
  st.resources.find? (fun r => r.rid == rid)

/-- `Folder.findById`. -/
def findFolder (fid : Nat) (st : St) : Option Folder :=
  st.folders.find? (fun f => f.fid == fid)

/-- `Department.findById`. -/
def findDepartment (did : Nat) (st : St) : Option Department :=
  st.departments.find? (fun d => d.did == did)

/-- `resource.save()` after in-memory edits: replace the document with the
matching id by the edited one (Mongo ids are unique). -/
def mapResourceById (rid : Nat) (g : Resource → Resource) (st : St) : St :=
  { st with resources := st.resources.map (fun x => if x.rid == rid then g x else x) }

/-- `Folder.findByIdAndUpdate` with an update function. -/
def mapFolderById (fid : Nat) (g : Folder → Folder) (st : St) : St :=
  { st with folders := st.folders.map (fun x => if x.fid == fid then g x else x) }

/-- `Department.findByIdAndUpdate` with an update function. -/
def mapDepartmentById (did : Nat) (g : Department → Department) (st : St) : St :=
  { st with departments := st.departments.map (fun x => if x.did == did then g x else x) }

/-! ## Middleware (authMiddleware.js) and the route gates (resourceRoutes.js) -/

/-- The `protect` + `restrictTo(...allowedRoles)` middleware chain:
no actor → 401 (`Not authorized, token missing`); actor whose role is not
in `allowedRoles` → 403 (`Forbidden: insufficient permissions`);
otherwise the request reaches the controller (`none`). Note `restrictTo`
inspects only the role — no ownership predicate exists in the middleware. -/
def gate (allowedRoles : List Role) (actor : Option Actor) : Option Nat :=
  match actor with
  | none => some 401
  | some a => if allowedRoles.contains a.role then none else some 403

/-! ## resourceController.js -/

/-- `GET /api/resources` with no query filters: the default list query is
`{ isActive: true }`. -/
def getResourcesDefault (st : St) : List Resource :=
  st.resources.filter (fun r => r.isActive)

/-- `getResourceById`: 404 when the document is absent or `!isActive`;
otherwise increments `views` (read-time side effect) and returns the
document. `none` encodes the 404 response. -/
def getResourceById (rid : Nat) (st : St) : Option Resource × St :=
  match findResource rid st with
  | none => (none, st)
  | some r =>
    if r.isActive then
      (some { r with views := r.views + 1 },
       mapResourceById rid (fun x => { x with views := x.views + 1 }) st)
    else (none, st)

/-- `deleteResource`: 404 when absent or inactive; otherwise soft delete —
sets `isActive = false` and saves. The Cloudinary hard-delete is commented
out in the source, so the cloud state is untouched. Returns the HTTP
status. -/
def deleteResource (rid : Nat) (st : St) : Nat × St :=
  match findResource rid st with
  | none => (404, st)
  | some r =>
    if r.isActive then
      (200, mapResourceById rid (fun x => { x with isActive := false }) st)
    else (404, st)

/-- `trackDownload`: `findByIdAndUpdate(id, { $inc: { downloads: 1 } })` —
note there is no `isActive` check, unlike every other single-resource
handler. `some d` is the 200 response carrying the new download count;
`none` is the 404 for a wholly absent id. -/
def trackDownload (rid : Nat) (st : St) : Option Nat × St :=
  match findResource rid st with
  | none => (none, st)
  | some r =>
    (some (r.downloads + 1),
     mapResourceById rid (fun x => { x with downloads := x.downloads + 1 }) st)

/-- The favoritedBy update of `toggleFavorite`: JS `findIndex` on the user
id followed by `splice(index, 1)` when found (remove the first
occurrence) or `push(userId)` when not (append at the end). -/
def toggleFavList (u : Nat) : List Nat → List Nat
  | [] => [u]
  | v :: rest => if v == u then rest else v :: toggleFavList u rest

/-- Response of `toggleFavorite`: 404, or 200 with
`{ isFavorited, favoriteCount }`. -/
inductive ToggleRes where
  | notFound
  | ok (isFavorited : Bool) (favoriteCount : Nat)
deriving DecidableEq, Repr

/-- `toggleFavorite`: 404 when absent or inactive; otherwise toggle
membership of `u` in `favoritedBy` and save. The response reports
`isFavorited: index === -1` (true iff the user was just added) and the
cardinality of the saved list. -/
def toggleFavorite (rid u : Nat) (st : St) : ToggleRes × St :=
  match findResource rid st with
  | none => (.notFound, st)
  | some r =>
    if r.isActive then
      (.ok (!(r.favoritedBy.contains u)) (toggleFavList u r.favoritedBy).length,
       mapResourceById rid (fun x => { x with favoritedBy := toggleFavList u x.favoritedBy }) st)
    else (.notFound, st)

/-- The body of `PUT /api/resources/:id` as destructured by
`updateResource`: every field optional; `folder` distinguishes absent
(`none`) from explicitly null/falsy (`some none`, the JS `folder || null`);
`tags`/`contributors` are modelled post-normalization (the JS accepts a
list or a comma-delimited string and splits the latter). `rtype` is a
`type` field present in the request body — the controller never reads it. -/
structure UpdateBody where
  title : Option String := none
  description : Option String := none
  url : Option String := none
  linkType : Option String := none
  folder : Option (Option Nat) := none
  tags : Option (List String) := none
  contributors : Option (List String) := none
  rtype : Option String := none
deriving DecidableEq, Repr

/-- `if (title) resource.title = title` — a truthiness guard, so an empty
string is skipped. -/
def applyTitle (o : Option String) (r : Resource) : Resource :=
  match o with
  | some t => if t == "" then r else { r with title := t }
  | none => r

/-- `if (description !== undefined) resource.description = description`. -/
def applyDescription (o : Option String) (r : Resource) : Resource :=
  match o with
  | some d => { r with description := d }
  | none => r

/-- `if (url && resource.type === "link") resource.url = url`. -/
def applyUrl (o : Option String) (r : Resource) : Resource :=
  match o with
  | some u => if u == "" then r else if r.rtype == "link" then { r with url := u } else r
  | none => r

/-- `if (linkType) resource.linkType = linkType` — note the src/backend
variant sets it whatever the resource type. -/
def applyLinkType (o : Option String) (r : Resource) : Resource :=
  match o with
  | some lt => if lt == "" then r else { r with linkType := some lt }
  | none => r

/-- `if (folder !== undefined) resource.folder = folder || null`. -/
def applyFolder (o : Option (Option Nat)) (r : Resource) : Resource :=
  match o with
  | some f => { r with folder := f }
  | none => r

/-- `if (tags !== undefined) resource.tags = ...` (list, or the split of
the delimited-string form). -/
def applyTags (o : Option (List String)) (r : Resource) : Resource :=
  match o with
  | some ts => { r with tags := ts }
  | none => r

/-- `if (contributors !== undefined) resource.contributors = ...`. -/
def applyContributors (o : Option (List String)) (r : Resource) : Resource :=
  match o with
  | some cs => { r with contributors := cs }
  | none => r

/-- The "update other fields" block of `updateResource`, in source order.
The body's `type` field (`rtype`) is never consulted. -/
def applyBody (b : UpdateBody) (r : Resource) : Resource :=
  applyContributors b.contributors (applyTags b.tags (applyFolder b.folder
    (applyLinkType b.linkType (applyUrl b.url
      (applyDescription b.description (applyTitle b.title r))))))

/-- The final `save()` + 200 response of `updateResource`. -/
def saveUpdatedResource (rid : Nat) (b : UpdateBody) (r0 : Resource) (st0 : St) : Nat × St :=
  (200, mapResourceById rid (fun _ => applyBody b r0) st0)

/-- `updateResource`: 404 when absent or inactive. When the resource has
`type === "file"` and a new binary payload is present (`reqFile`), the old
Cloudinary entry is destroyed first — `await cloudinary.uploader.destroy`
is NOT wrapped in its own try/catch, so a failing destroy
(`destroyOk = false`) propagates to the outer catch: the handler answers
500 and nothing is saved. Then the new file is uploaded (its outcome is
the `Except` inside `reqFile`); an upload failure likewise answers 500
(with the old cloud entry already gone). On success the file fields are
replaced and the remaining body fields applied. -/
def updateResource (rid : Nat) (b : UpdateBody) (reqFile : Option (Except Unit UploadRes))
    (destroyOk : Bool) (st : St) : Nat × St :=
  match findResource rid st with
  | none => (404, st)
  | some r =>
    if r.isActive then
      match reqFile with
      | some up =>
        if r.rtype == "file" then
          match r.publicId with
          | some pid =>
            if destroyOk then
              let stD := { st with cloud := st.cloud.erase pid }
              match up with
              | .error _ => (500, stD)
              | .ok u =>
                saveUpdatedResource rid b
                  { r with url := u.secureUrl, publicId := some u.publicId,
                           format := some u.format, size := u.bytes }
                  { stD with cloud := stD.cloud ++ [u.publicId] }
            else (500, st)
          | none =>
            match up with
            | .error _ => (500, st)
            | .ok u =>
              saveUpdatedResource rid b
                { r with url := u.secureUrl, publicId := some u.publicId,
                         format := some u.format, size := u.bytes }
                { st with cloud := st.cloud ++ [u.publicId] }
        else saveUpdatedResource rid b r st
      | none => saveUpdatedResource rid b r st
    else (404, st)

/-- `addFilesToResource`: 404 when absent or inactive; 400 when
`req.files` is empty; otherwise all payloads are uploaded via
`Promise.all` — every successful upload reaches object storage, but if any
single upload fails the whole batch rejects (500) and the resource's
`files` list is never touched. On full success the uploaded files are
appended (sub-document ids assigned from `nextId`). -/
def addFilesToResource (rid : Nat) (uploads : List (Except Unit UploadRes))
    (nextId : Nat) (st : St) : Nat × St :=
  match findResource rid st with
  | none => (404, st)
  | some r =>
    if r.isActive then
      if uploads.isEmpty then (400, st)
      else
        let successes := uploads.filterMap (fun o => o.toOption)
        let st1 := { st with cloud := st.cloud ++ successes.map (fun u => u.publicId) }
        if uploads.any (fun o => match o with | .error _ => true | .ok _ => false) then
          (500, st1)
        else
          let entries := successes.enum.map (fun p =>
            FileEntry.mk (nextId + p.1) p.2.secureUrl (some p.2.publicId) p.2.format p.2.bytes)
          (200, mapResourceById rid (fun x => { x with files := x.files ++ entries }) st1)
    else (404, st)

/-- `removeFileFromResource`: finds the sub-file whose `_id` (decimal
string) or `publicId` equals the `fileId` route parameter; 404 when the
resource or the sub-file is missing; destroys the Cloudinary entry when a
`publicId` is present (`destroyOk = false` makes the un-guarded await
throw → 500); then filters the sub-file out of `files` and saves. -/
def removeFileFromResource (rid : Nat) (fileId : String) (destroyOk : Bool)
    (st : St) : Nat × St :=
  match findResource rid st with
  | none => (404, st)
  | some r =>
    if r.isActive then
      match r.files.find? (fun f => toString f.fid == fileId || f.publicId == some fileId) with
      | none => (404, st)
      | some file =>
        let keep := fun (f : FileEntry) => !(toString f.fid == fileId) && !(f.publicId == some fileId)
        let filt := fun (x : Resource) => { x with files := x.files.filter keep }
        let strip := fun (st1 : St) => (200, mapResourceById rid filt st1)
        match file.publicId with
        | some pid =>
          if destroyOk then strip { st with cloud := st.cloud.erase pid }
          else (500, st)
        | none => strip st
    else (404, st)

/-! ## Route pipelines (resourceRoutes.js): middleware chain then handler. -/

/-- `PUT /api/resources/:id` — `protect, restrictTo("member","co-manager")`
then `updateResource`. -/
def putResourceRoute (actor : Option Actor) (rid : Nat) (b : UpdateBody)
    (reqFile : Option (Except Unit UploadRes)) (destroyOk : Bool) (st : St) : Nat × St :=
  match gate [Role.member, Role.comanager] actor with
  | some c => (c, st)
  | none => updateResource rid b reqFile destroyOk st

/-- `DELETE /api/resources/:id` — the source passes
`restrictTo("member", "co-manager", "co-manager")` (duplicate kept). -/
def deleteResourceRoute (actor : Option Actor) (rid : Nat) (st : St) : Nat × St :=
  match gate [Role.member, Role.comanager, Role.comanager] actor with
  | some c => (c, st)
  | none => deleteResource rid st

/-- `PATCH /api/resources/:id/add-files` — `protect`,
`restrictTo("member","co-manager")`, `upload.array("files", 10)` (multer
rejects more than 10 payloads before the handler runs), then
`addFilesToResource`. -/
def addFilesRoute (actor : Option Actor) (rid : Nat)
    (uploads : List (Except Unit UploadRes)) (nextId : Nat) (st : St) : Nat × St :=
  match gate [Role.member, Role.comanager] actor with
  | some c => (c, st)
  | none =>
    if uploads.length > 10 then (500, st)
    else addFilesToResource rid uploads nextId st

/-- `DELETE /api/resources/:id/remove-file/:fileId` — `protect`,
`restrictTo("member","co-manager")`, then `removeFileFromResource`. -/
def removeFileRoute (actor : Option Actor) (rid : Nat) (fileId : String)
    (destroyOk : Bool) (st : St) : Nat × St :=
  match gate [Role.member, Role.comanager] actor with
  | some c => (c, st)
  | none => removeFileFromResource rid fileId destroyOk st

/-! ## folderController (createFolder / deleteFolder) -/

/-- Number of active resources referencing a folder:
`Resource.countDocuments({ folder: id, isActive: true })`. -/
def activeResourcesInFolder (fid : Nat) (st : St) : Nat :=
  (st.resources.filter (fun r => r.folder == some fid && r.isActive)).length

/-- Response of `createFolder`. `badRequest` covers the missing-name 400;
`deptNotFound` the 404 for an absent department; `conflict` the 400
"Folder with this name already exists in this department" (the duplicate
check filters on `isActive: true`); `dbError` the 500 raised when
`Folder.create` violates the compound unique index
`folderSchema.index({ name: 1, department: 1 }, { unique: true })`, which
is NOT restricted to active documents; `created` the 201. -/
inductive CreateFolderRes where
  | badRequest
  | deptNotFound
  | conflict
  | dbError
  | created (fid : Nat)
deriving DecidableEq, Repr

/-- `createFolder`: validates the name (the JS trims the raw input first;
`name` here is the trimmed form), requires the department to exist
(`Department.findById` — active or not), rejects a duplicate name among
ACTIVE folders of the department (400), then inserts. The insert itself
is subject to the model's compound unique index over (name, department)
spanning ALL folder documents, soft-deleted ones included; a duplicate
there raises E11000, caught as a 500. On success the new folder is
appended and `Department.folderCount` is incremented. -/
def createFolder (name : String) (dept : Nat) (newId : Nat) (st : St) : CreateFolderRes × St :=
  if name == "" then (.badRequest, st)
  else
    match findDepartment dept st with
    | none => (.deptNotFound, st)
    | some _ =>
      if st.folders.any (fun f => f.name == name && f.department == dept && f.isActive) then
        (.conflict, st)
      else if st.folders.any (fun f => f.name == name && f.department == dept) then
        (.dbError, st)
      else
        let folder : Folder :=
          { fid := newId, name := name, department := dept
            resourceCount := 0, isActive := true }
        let st1 := { st with folders := st.folders ++ [folder] }
        (.created newId, mapDepartmentById dept (fun d => { d with folderCount := d.folderCount + 1 }) st1)

/-- Response of `deleteFolder`. `blocked n` is the 400 whose message
interpolates the exact active-resource count
(`Cannot delete folder with ${resourceCount} resources. ...`);
`targetNotFound` the 404 for a missing or inactive `moveResourcesTo`
folder; `deleted` the 200. -/
inductive FolderDelRes where
  | notFound
  | targetNotFound
  | blocked (count : Nat)
  | deleted
deriving DecidableEq, Repr

/-- The tail of `deleteFolder`: soft-delete the folder and decrement the
owning department's `folderCount`. -/
def folderSoftDeleteStep (fid dept : Nat) (st : St) : FolderDelRes × St :=
  let st1 := mapFolderById fid (fun f => { f with isActive := false }) st
  (.deleted, mapDepartmentById dept (fun d => { d with folderCount := d.folderCount - 1 }) st1)

/-- `deleteFolder`: 404 when the folder is absent; counts the active
resources referencing it; when that count is positive and no
`moveResourcesTo` is given, rejects with the count (state untouched);
when a target is given it must exist and be active (404 otherwise), then
`Resource.updateMany({folder: id, isActive: true}, {folder: target})`
reassigns the active resources and the target's `resourceCount` is
incremented by the moved count; finally the folder is soft-deleted and
the department's `folderCount` decremented. -/
def deleteFolder (fid : Nat) (moveResourcesTo : Option Nat) (st : St) : FolderDelRes × St :=
  match findFolder fid st with
  | none => (.notFound, st)
  | some folder =>
    let n := activeResourcesInFolder fid st
    if n > 0 then
      match moveResourcesTo with
      | none => (.blocked n, st)
      | some tgt =>
        match findFolder tgt st with
        | none => (.targetNotFound, st)
        | some tf =>
          if tf.isActive then
            let st1 := { st with resources := st.resources.map (fun r =>
              if r.folder == some fid && r.isActive then { r with folder := some tgt } else r) }
            let st2 := mapFolderById tgt (fun f => { f with resourceCount := f.resourceCount + n }) st1
            folderSoftDeleteStep fid folder.department st2
          else (.targetNotFound, st)
    else folderSoftDeleteStep fid folder.department st

/-! ## departmentController (deleteDepartment) -/

/-- Number of resources — active or not — referencing a department:
`Resource.countDocuments({ department: id })` (no `isActive` filter, in
contrast to the folder case). -/
def resourcesInDepartment (did : Nat) (st : St) : Nat :=
  (st.resources.filter (fun r => r.department == did)).length

/-- Response of `deleteDepartment`. `blocked n` is the 400 whose message
names the blocking count
(`Cannot delete department with ${resourceCount} resources.`); the
handler offers no reassignment parameter at all. -/
inductive DeptDelRes where
  | notFound
  | blocked (count : Nat)
  | deleted
deriving DecidableEq, Repr

/-- `deleteDepartment`: 404 when absent; rejects whenever ANY resource
(active or inactive) references the department, before any mutation;
otherwise soft-deletes the department. -/
def deleteDepartment (did : Nat) (st : St) : DeptDelRes × St :=
  match findDepartment did st with
  | none => (.notFound, st)
  | some _ =>
    let n := resourcesInDepartment did st
    if n > 0 then (.blocked n, st)
    else (.deleted, mapDepartmentById did (fun d => { d with isActive := false }) st)

/-! ## General lemmas -/

/-- `find?` commutes with a `map` whose function is invisible to the
predicate (single-document updates preserve the id being searched). -/
theorem find?_map_of_pred_inv {α : Type} (g : α → α) (p : α → Bool)
    (hg : ∀ a, p (g a) = p a) :
    ∀ L : List α, (L.map g).find? p = (L.find? p).map g := by
  intro L
  have hpg : (p ∘ g) = p := funext hg
  rw [List.find?_map, hpg]

/-- `findResource` after a single-document update that preserves ids. -/
theorem findResource_mapResourceById (rid t : Nat) (g : Resource → Resource)
    (hg : ∀ x, (g x).rid = x.rid) (st : St) :
    findResource t (mapResourceById rid g st) =
      (findResource t st).map (fun x => if x.rid == rid then g x else x) := by
  unfold findResource mapResourceById
  exact find?_map_of_pred_inv _ _
    (fun a => by by_cases h : a.rid == rid <;> simp [h, hg]) _

/-- Updating the searched-for document: the update lands on it. -/
theorem findResource_mapResourceById_self (rid : Nat) (g : Resource → Resource)
    (hg : ∀ x, (g x).rid = x.rid) (st : St) (r : Resource)
    (hf : findResource rid st = some r) :
    findResource rid (mapResourceById rid g st) = some (g r) := by
  have hp : (r.rid == rid) = true :=
    List.find?_some (p := fun x : Resource => x.rid == rid) (l := st.resources) hf
  rw [findResource_mapResourceById rid rid g hg st, hf, Option.map_some', hp]
  simp

/-- `findFolder` after a single-document folder update that preserves ids. -/
theorem findFolder_mapFolderById (fid t : Nat) (g : Folder → Folder)
    (hg : ∀ x, (g x).fid = x.fid) (st : St) :
    findFolder t (mapFolderById fid g st) =
      (findFolder t st).map (fun x => if x.fid == fid then g x else x) := by
  unfold findFolder mapFolderById
  exact find?_map_of_pred_inv _ _
    (fun a => by by_cases h : a.fid == fid <;> simp [h, hg]) _

/-- In a collection whose ids are `Nodup`, two members with the same id
are the same document. -/
theorem eq_of_rid_nodup {l : List Resource} (h : (l.map Resource.rid).Nodup)
    {x y : Resource} (hx : x ∈ l) (hy : y ∈ l) (hxy : x.rid = y.rid) : x = y := by
  induction l with
  | nil => cases hx
  | cons a t ih =>
    rw [List.map_cons, List.nodup_cons] at h
    rcases List.mem_cons.mp hx with hx1 | hx2 <;> rcases List.mem_cons.mp hy with hy1 | hy2
    · rw [hx1, hy1]
    · subst hx1
      exact absurd (by rw [hxy]; exact List.mem_map_of_mem Resource.rid hy2) h.1
    · subst hy1
      exact absurd (by rw [← hxy]; exact List.mem_map_of_mem Resource.rid hx2) h.1
    · exact ih h.2 hx2 hy2

/-! ## Algebra of the favorite toggle list operation -/

/-- A member of the toggled list was a member before or is the toggled id. -/
theorem mem_toggleFavList {u v : Nat} : ∀ {L : List Nat},
    v ∈ toggleFavList u L → v ∈ L ∨ v = u := by
  intro L
  induction L with
  | nil =>
    intro h
    rcases List.mem_singleton.mp h with h1
    exact Or.inr h1
  | cons a t ih =>
    intro h
    by_cases hau : (a == u) = true
    · rw [toggleFavList, if_pos hau] at h
      exact Or.inl (List.mem_cons_of_mem a h)
    · rw [toggleFavList, if_neg hau] at h
      rcases List.mem_cons.mp h with h1 | h2
      · exact Or.inl (List.mem_cons.mpr (Or.inl h1))
      · rcases ih h2 with h3 | h3
        · exact Or.inl (List.mem_cons_of_mem a h3)
        · exact Or.inr h3

/-- Toggling preserves freedom from duplicates. -/
theorem toggleFavList_nodup (u : Nat) : ∀ {L : List Nat},
    L.Nodup → (toggleFavList u L).Nodup := by
  intro L
  induction L with
  | nil => intro _; simp [toggleFavList]
  | cons a t ih =>
    intro h
    rcases List.nodup_cons.mp h with ⟨ha, ht⟩
    by_cases hau : (a == u) = true
    · rw [toggleFavList, if_pos hau]; exact ht
    · rw [toggleFavList, if_neg hau]
      refine List.nodup_cons.mpr ⟨?_, ih ht⟩
      intro hmem
      rcases mem_toggleFavList hmem with h1 | h2
      · exact ha h1
      · exact hau (by simp [h2])

/-- Toggling an id that is absent appends it (JS `push`). -/
theorem toggleFavList_of_not_mem (u : Nat) : ∀ {L : List Nat},
    u ∉ L → toggleFavList u L = L ++ [u] := by
  intro L
  induction L with
  | nil => intro _; rfl
  | cons a t ih =>
    intro h
    have hne : (a == u) = false := by
      simp only [beq_eq_false_iff_ne, ne_eq]
      intro hau
      exact h (by rw [hau]; exact List.mem_cons_self u t)
    rw [toggleFavList, if_neg (by simp [hne]), ih (fun hm => h (List.mem_cons_of_mem a hm))]
    rfl

/-- Toggling the id just appended removes exactly it. -/
theorem toggleFavList_append_self (u : Nat) : ∀ {L : List Nat},
    u ∉ L → toggleFavList u (L ++ [u]) = L := by
  intro L
  induction L with
  | nil => simp [toggleFavList]
  | cons a t ih =>
    intro h
    have hne : (a == u) = false := by
      simp only [beq_eq_false_iff_ne, ne_eq]
      intro hau
      exact h (by rw [hau]; exact List.mem_cons_self u t)
    rw [List.cons_append, toggleFavList, if_neg (by simp [hne]),
      ih (fun hm => h (List.mem_cons_of_mem a hm))]

/-- After toggling a present id out of a duplicate-free list, it is gone. -/
theorem not_mem_toggleFavList_self (u : Nat) : ∀ {L : List Nat},
    L.Nodup → u ∈ L → u ∉ toggleFavList u L := by
  intro L
  induction L with
  | nil => intro _ hm; cases hm
  | cons a t ih =>
    intro hnd hm
    rcases List.nodup_cons.mp hnd with ⟨ha, ht⟩
    by_cases hau : (a == u) = true
    · rw [toggleFavList, if_pos hau]
      have : a = u := by simpa using hau
      rw [← this]
      exact ha
    · rw [toggleFavList, if_neg hau]
      have hut : u ∈ t := by
        rcases List.mem_cons.mp hm with h1 | h2
        · exact absurd (by simp [h1]) hau
        · exact h2
      intro hmem
      rcases List.mem_cons.mp hmem with h1 | h2
      · exact hau (by simp [h1.symm])
      · exact ih ht hut h2

/-- Removing a present id shortens the list by one. -/
theorem length_toggleFavList_mem (u : Nat) : ∀ {L : List Nat},
    u ∈ L → (toggleFavList u L).length + 1 = L.length := by
  intro L
  induction L with
  | nil => intro hm; cases hm
  | cons a t ih =>
    intro hm
    by_cases hau : (a == u) = true
    · rw [toggleFavList, if_pos hau, List.length_cons]
    · have hut : u ∈ t := by
        rcases List.mem_cons.mp hm with h1 | h2
        · exact absurd (by simp [h1]) hau
        · exact h2
      rw [toggleFavList, if_neg hau, List.length_cons, List.length_cons, ih hut]

/-- Appending an absent id lengthens the list by one. -/
theorem length_toggleFavList_not_mem (u : Nat) {L : List Nat}
    (h : u ∉ L) : (toggleFavList u L).length = L.length + 1 := by
  rw [toggleFavList_of_not_mem u h, List.length_append, List.length_singleton]

/-- Double toggle of a duplicate-free list restores membership of the
toggled id and the cardinality. -/
theorem toggleFavList_twice (u : Nat) {L : List Nat} (hnd : L.Nodup) :
    (u ∈ toggleFavList u (toggleFavList u L) ↔ u ∈ L)
    ∧ (toggleFavList u (toggleFavList u L)).length = L.length := by
  by_cases hm : u ∈ L
  · have h1 : u ∉ toggleFavList u L := not_mem_toggleFavList_self u hnd hm
    have h2 : u ∈ toggleFavList u (toggleFavList u L) := by
      rw [toggleFavList_of_not_mem u h1]
      exact List.mem_append.mpr (Or.inr (List.mem_singleton.mpr rfl))
    refine ⟨by simp [h2, hm], ?_⟩
    rw [length_toggleFavList_not_mem u h1, length_toggleFavList_mem u hm]
  · rw [toggleFavList_of_not_mem u hm, toggleFavList_append_self u hm]
    exact ⟨Iff.rfl, rfl⟩

/-- The returned `isFavorited` flag equals the membership state of the
saved list (for duplicate-free lists). -/
theorem contains_toggleFavList (u : Nat) {L : List Nat} (hnd : L.Nodup) :
    (toggleFavList u L).contains u = !(L.contains u) := by
  by_cases hm : u ∈ L
  · have h1 : u ∉ toggleFavList u L := not_mem_toggleFavList_self u hnd hm
    simp [List.contains, hm, h1]
  · have h2 : u ∈ toggleFavList u L := by
      rw [toggleFavList_of_not_mem u hm]
      exact List.mem_append.mpr (Or.inr (List.mem_singleton.mpr rfl))
    simp [List.contains, hm, h2]

/-! ## Concrete demo records for witnesses -/

/-- A literal resource with the fields the witnesses care about. -/
def mkRes (rid dept : Nat) (fold upBy : Option Nat) (act : Bool) : Resource :=
  { rid := rid, title := "t", description := "", rtype := "link", department := dept
    folder := fold, uploadedBy := upBy, url := "u", publicId := none, format := none
    size := 0, linkType := some "other", tags := [], contributors := [], views := 0
    downloads := 0, favoritedBy := [], files := [], isActive := act }

/-- Demo department. -/
def dW : Department := { did := 100, name := "CS", folderCount := 1, resourceCount := 0, isActive := true }

/-- Demo store for the department-deletion witness: one inactive resource
still references department 100. -/
def stC3 : St :=
  { departments := [dW], folders := [], resources := [mkRes 7 100 none none false], cloud := [] }

/-- Demo store for the soft-delete witness. -/
def stC4 : St :=
  { departments := [dW], folders := [], resources := [mkRes 7 100 none (some 1) true], cloud := ["keep"] }

/-- Demo store for the download-tracking witness: resource 7 is inactive. -/
def stC10 : St :=
  { departments := [dW], folders := [], resources := [mkRes 7 100 none none false], cloud := [] }

/-! ## Claims -/

/-- Claim C3: for a department referenced by at least one resource, active
or not, deletion is rejected with the blocking count in the error payload
(a ConflictError in the spec's taxonomy), the handler offers no
reassignment parameter, and the state — in particular the department's
active flag — is unchanged. -/
theorem department_delete_guard (st : St) (did : Nat) (d : Department) (r0 : Resource)
    (hd : findDepartment did st = some d)
    (hr : r0 ∈ st.resources) (hrd : r0.department = did) :
    0 < resourcesInDepartment did st
    ∧ deleteDepartment did st = (.blocked (resourcesInDepartment did st), st) := by
  have hn : 0 < resourcesInDepartment did st := by
    unfold resourcesInDepartment
    have hmem : r0 ∈ st.resources.filter (fun r => r.department == did) :=
      List.mem_filter.mpr ⟨hr, by simp [hrd]⟩
    exact List.length_pos.mpr (List.ne_nil_of_mem hmem)
  exact ⟨hn, by simp [deleteDepartment, hd, hn]⟩

/-- Witness for C3 at a concrete store whose only referencing resource is
inactive. -/
theorem department_delete_guard_witness :
    0 < resourcesInDepartment 100 stC3
    ∧ deleteDepartment 100 stC3 = (.blocked (resourcesInDepartment 100 stC3), stC3) :=
  department_delete_guard stC3 100 dW (mkRes 7 100 none none false)
    (by decide) (by decide) (by decide)

/-- Claim C4: deleting an active resource answers 200 and flips only the
active flag: the record persists with every other field unchanged, the
default list query no longer returns it, `getResourceById` answers 404
(without mutating), and object storage is untouched. -/
theorem resource_soft_delete (st : St) (rid : Nat) (r : Resource)
    (hf : findResource rid st = some r) (ha : r.isActive = true) :
    (deleteResource rid st).1 = 200
    ∧ { r with isActive := false } ∈ (deleteResource rid st).2.resources
    ∧ (∀ x ∈ getResourcesDefault (deleteResource rid st).2, x.rid ≠ rid)
    ∧ getResourceById rid (deleteResource rid st).2 = (none, (deleteResource rid st).2)
    ∧ (deleteResource rid st).2.cloud = st.cloud := by
  have hdel : deleteResource rid st
      = (200, mapResourceById rid (fun x => { x with isActive := false }) st) := by
    unfold deleteResource; rw [hf]; simp [ha]
  have hp : (r.rid == rid) = true :=
    List.find?_some (p := fun x : Resource => x.rid == rid) (l := st.resources) hf
  have hrmem : r ∈ st.resources :=
    List.mem_of_find?_eq_some (p := fun x : Resource => x.rid == rid) hf
  rw [hdel]
  refine ⟨rfl, ?_, ?_, ?_, rfl⟩
  · have himg : (fun x => if x.rid == rid then { x with isActive := false } else x) r
        = { r with isActive := false } := by simp [hp]
    unfold mapResourceById
    exact himg ▸ List.mem_map_of_mem _ hrmem
  · intro x hx
    unfold getResourcesDefault mapResourceById at hx
    rcases List.mem_filter.mp hx with ⟨hxm, hxa⟩
    rcases List.mem_map.mp hxm with ⟨y, hy, hxy⟩
    intro hxr
    by_cases hyy : (y.rid == rid) = true
    · rw [if_pos hyy] at hxy
      rw [← hxy] at hxa
      simp at hxa
    · rw [if_neg hyy] at hxy
      rw [← hxy] at hxr
      exact hyy (by simp [hxr])
  · have hfind : findResource rid (mapResourceById rid (fun x => { x with isActive := false }) st)
        = some { r with isActive := false } :=
      findResource_mapResourceById_self rid (fun x => { x with isActive := false })
        (fun x => rfl) st r hf
    unfold getResourceById
    rw [hfind]
    simp

/-- Witness for C4 at a concrete store. -/
theorem resource_soft_delete_witness :
    (deleteResource 7 stC4).1 = 200
    ∧ { mkRes 7 100 none (some 1) true with isActive := false } ∈ (deleteResource 7 stC4).2.resources
    ∧ (∀ x ∈ getResourcesDefault (deleteResource 7 stC4).2, x.rid ≠ 7)
    ∧ getResourceById 7 (deleteResource 7 stC4).2 = (none, (deleteResource 7 stC4).2)
    ∧ (deleteResource 7 stC4).2.cloud = stC4.cloud :=
  resource_soft_delete stC4 7 (mkRes 7 100 none (some 1) true) (by decide) (by decide)

/-- Claim C10: `trackDownload` ignores the active flag — on a soft-deleted
resource it still increments the download counter and reports success,
and it answers 404 only when no document with the id exists at all; the
same inactive resource is a 404 for `getResourceById`, `updateResource`,
`deleteResource` and `toggleFavorite`. -/
theorem track_download_inactive (st : St) (rid : Nat) (r : Resource)
    (hf : findResource rid st = some r) (hi : r.isActive = false) :
    (trackDownload rid st).1 = some (r.downloads + 1)
    ∧ findResource rid (trackDownload rid st).2 = some { r with downloads := r.downloads + 1 }
    ∧ getResourceById rid st = (none, st)
    ∧ deleteResource rid st = (404, st)
    ∧ (∀ b reqFile dok, updateResource rid b reqFile dok st = (404, st))
    ∧ (∀ u, toggleFavorite rid u st = (.notFound, st))
    ∧ (∀ st2 : St, findResource rid st2 = none → trackDownload rid st2 = (none, st2)) := by
  have htd : trackDownload rid st
      = (some (r.downloads + 1),
         mapResourceById rid (fun x => { x with downloads := x.downloads + 1 }) st) := by
    unfold trackDownload; rw [hf]
  refine ⟨by rw [htd], ?_, ?_, ?_, ?_, ?_, ?_⟩
  · rw [htd]
    exact findResource_mapResourceById_self rid (fun x => { x with downloads := x.downloads + 1 })
      (fun x => rfl) st r hf
  · unfold getResourceById; rw [hf]; simp [hi]
  · unfold deleteResource; rw [hf]; simp [hi]
  · intro b reqFile dok; unfold updateResource; rw [hf]; simp [hi]
  · intro u; unfold toggleFavorite; rw [hf]; simp [hi]
  · intro st2 h2; unfold trackDownload; rw [h2]

/-- Witness for C10 at a concrete store with an inactive resource. -/
theorem track_download_inactive_witness :
    (trackDownload 7 stC10).1 = some 1
    ∧ getResourceById 7 stC10 = (none, stC10)
    ∧ deleteResource 7 stC10 = (404, stC10)
    ∧ toggleFavorite 7 3 stC10 = (.notFound, stC10) := by
  have h := track_download_inactive stC10 7 (mkRes 7 100 none none false) (by decide) (by decide)
  exact ⟨h.1, h.2.2.1, h.2.2.2.1, h.2.2.2.2.2.1 3⟩

/-- Any sequence of toggles keeps the favorite list duplicate-free. -/
theorem foldl_toggleFavList_nodup (seq : List Nat) :
    ∀ {L : List Nat}, L.Nodup → (seq.foldl (fun acc v => toggleFavList v acc) L).Nodup := by
  induction seq with
  | nil => intro L h; exact h
  | cons s rest ih =>
    intro L h
    rw [List.foldl_cons]
    exact ih (toggleFavList_nodup s h)

/-- Demo store for the favorite-toggle witness: resource 7 is active and
already favorited by user 3. -/
def stC5 : St :=
  { departments := [dW], folders := [],
    resources := [{ mkRes 7 100 none none true with favoritedBy := [3, 4] }], cloud := [] }

/-- Claim C5: toggling a favorite returns the resulting membership state
and the new cardinality; toggling the same (resource, user) pair twice
restores the original membership and cardinality; and no sequence of
toggles introduces a duplicate entry. -/
theorem favorite_toggle_props (st : St) (rid u : Nat) (r : Resource)
    (hf : findResource rid st = some r) (ha : r.isActive = true)
    (hnd : r.favoritedBy.Nodup) :
    (toggleFavorite rid u st).1
        = .ok ((toggleFavList u r.favoritedBy).contains u) (toggleFavList u r.favoritedBy).length
    ∧ (∃ r2, findResource rid (toggleFavorite rid u (toggleFavorite rid u st).2).2 = some r2
        ∧ (u ∈ r2.favoritedBy ↔ u ∈ r.favoritedBy)
        ∧ r2.favoritedBy.length = r.favoritedBy.length
        ∧ r2.favoritedBy.Nodup)
    ∧ (∀ seq : List Nat, (seq.foldl (fun acc v => toggleFavList v acc) r.favoritedBy).Nodup) := by
  have htf : toggleFavorite rid u st
      = (.ok (!(r.favoritedBy.contains u)) (toggleFavList u r.favoritedBy).length,
         mapResourceById rid (fun x => { x with favoritedBy := toggleFavList u x.favoritedBy }) st) := by
    unfold toggleFavorite; rw [hf]; simp [ha]
  have hfind1 : findResource rid
      (mapResourceById rid (fun x => { x with favoritedBy := toggleFavList u x.favoritedBy }) st)
      = some { r with favoritedBy := toggleFavList u r.favoritedBy } :=
    findResource_mapResourceById_self rid
      (fun x => { x with favoritedBy := toggleFavList u x.favoritedBy }) (fun x => rfl) st r hf
  have htf2 : toggleFavorite rid u
      (mapResourceById rid (fun x => { x with favoritedBy := toggleFavList u x.favoritedBy }) st)
      = (.ok (!((toggleFavList u r.favoritedBy).contains u))
           (toggleFavList u (toggleFavList u r.favoritedBy)).length,
         mapResourceById rid (fun x => { x with favoritedBy := toggleFavList u x.favoritedBy })
           (mapResourceById rid (fun x => { x with favoritedBy := toggleFavList u x.favoritedBy }) st)) := by
    unfold toggleFavorite; rw [hfind1]; simp [ha]
  have hfind2 : findResource rid
      (mapResourceById rid (fun x => { x with favoritedBy := toggleFavList u x.favoritedBy })
        (mapResourceById rid (fun x => { x with favoritedBy := toggleFavList u x.favoritedBy }) st))
      = some { r with favoritedBy := toggleFavList u (toggleFavList u r.favoritedBy) } :=
    findResource_mapResourceById_self rid
      (fun x => { x with favoritedBy := toggleFavList u x.favoritedBy }) (fun x => rfl) _ _ hfind1
  refine ⟨?_, ?_, fun seq => foldl_toggleFavList_nodup seq hnd⟩
  · rw [htf, contains_toggleFavList u hnd]
  · refine ⟨{ r with favoritedBy := toggleFavList u (toggleFavList u r.favoritedBy) }, ?_, ?_, ?_, ?_⟩
    · rw [htf]
      dsimp only
      rw [htf2]
      exact hfind2
    · exact (toggleFavList_twice u hnd).1
    · exact (toggleFavList_twice u hnd).2
    · exact toggleFavList_nodup u (toggleFavList_nodup u hnd)

/-- Witness for C5: user 3 toggles resource 7 twice; it starts favorited,
ends favorited, cardinality back to 2. -/
theorem favorite_toggle_props_witness :
    (toggleFavorite 7 3 stC5).1 = .ok false 1
    ∧ (∃ r2, findResource 7 (toggleFavorite 7 3 (toggleFavorite 7 3 stC5).2).2 = some r2
        ∧ (3 ∈ r2.favoritedBy ↔ (3 : Nat) ∈ [3, 4])
        ∧ r2.favoritedBy.length = 2) := by
  have h := favorite_toggle_props stC5 7 3 { mkRes 7 100 none none true with favoritedBy := [3, 4] }
    (by decide) (by decide) (by decide)
  refine ⟨?_, ?_⟩
  · rw [h.1]; decide
  · rcases h.2.1 with ⟨r2, h1, h2, h3, _⟩
    exact ⟨r2, h1, h2, h3⟩

/-- Updating the searched-for folder: the update lands on it. -/
theorem findFolder_mapFolderById_self (fid : Nat) (g : Folder → Folder)
    (hg : ∀ x, (g x).fid = x.fid) (st : St) (f : Folder)
    (hf : findFolder fid st = some f) :
    findFolder fid (mapFolderById fid g st) = some (g f) := by
  have hp : (f.fid == fid) = true :=
    List.find?_some (p := fun x : Folder => x.fid == fid) (l := st.folders) hf
  rw [findFolder_mapFolderById fid fid g hg st, hf, Option.map_some', hp]
  simp

/-- Demo folders and store for the folder-deletion witness: folder 1 holds
three active resources (11, 12, 13) and one inactive (14); folder 2 is an
active reassignment target. -/
def fA : Folder := { fid := 1, name := "A", department := 100, resourceCount := 3, isActive := true }

/-- The reassignment target folder of the witness. -/
def fB : Folder := { fid := 2, name := "B", department := 100, resourceCount := 0, isActive := true }

/-- Store for the folder-deletion witness. -/
def stC2 : St :=
  { departments := [dW], folders := [fA, fB],
    resources := [mkRes 11 100 (some 1) none true, mkRes 12 100 (some 1) none true,
                  mkRes 13 100 (some 1) none true, mkRes 14 100 (some 1) none false],
    cloud := [] }

/-- Claim C2: deleting a folder with n > 0 active resources and no
reassignment target is rejected with exactly n in the error payload and
the state unchanged; with an existing active target folder the deletion
succeeds, every active resource that referenced the folder now references
the target, and the target's `resourceCount` grows by exactly n. -/
theorem folder_delete_cascade (st : St) (fid tgt : Nat) (fol tf : Folder)
    (hf : findFolder fid st = some fol)
    (hn : 0 < activeResourcesInFolder fid st) :
    deleteFolder fid none st = (.blocked (activeResourcesInFolder fid st), st)
    ∧ (findFolder tgt st = some tf → tf.isActive = true →
        (deleteFolder fid (some tgt) st).1 = .deleted
        ∧ (∀ r ∈ st.resources, r.isActive = true → r.folder = some fid →
            { r with folder := some tgt } ∈ (deleteFolder fid (some tgt) st).2.resources)
        ∧ (∃ tf2, findFolder tgt (deleteFolder fid (some tgt) st).2 = some tf2
            ∧ tf2.resourceCount = tf.resourceCount + (activeResourcesInFolder fid st : Int))) := by
  constructor
  · unfold deleteFolder
    rw [hf]
    simp [hn]
  · intro ht hact
    have hdel : deleteFolder fid (some tgt) st
        = (.deleted,
           mapDepartmentById fol.department (fun d => { d with folderCount := d.folderCount - 1 })
             (mapFolderById fid (fun f => { f with isActive := false })
               (mapFolderById tgt
                 (fun f => { f with resourceCount := f.resourceCount + (activeResourcesInFolder fid st : Int) })
                 { st with resources := st.resources.map (fun r =>
                     if r.folder == some fid && r.isActive then { r with folder := some tgt } else r) }))) := by
      unfold deleteFolder folderSoftDeleteStep
      rw [hf]
      simp [hn, ht, hact]
    rw [hdel]
    refine ⟨rfl, ?_, ?_⟩
    · intro r hr hra hrf
      dsimp only [mapDepartmentById, mapFolderById]
      have himg : (fun r => if r.folder == some fid && r.isActive
            then { r with folder := some tgt } else r) r = { r with folder := some tgt } := by
        simp [hra, hrf]
      exact himg ▸ List.mem_map_of_mem _ hr
    · have ht1 : findFolder tgt
          { st with resources := st.resources.map (fun r =>
              if r.folder == some fid && r.isActive then { r with folder := some tgt } else r) }
          = some tf := ht
      have ht2 := findFolder_mapFolderById_self tgt
        (fun f => { f with resourceCount := f.resourceCount + (activeResourcesInFolder fid st : Int) })
        (fun x => rfl) _ tf ht1
      have ht3 := findFolder_mapFolderById fid tgt (fun f => { f with isActive := false })
        (fun x => rfl)
        (mapFolderById tgt
          (fun f => { f with resourceCount := f.resourceCount + (activeResourcesInFolder fid st : Int) })
          { st with resources := st.resources.map (fun r =>
              if r.folder == some fid && r.isActive then { r with folder := some tgt } else r) })
      rw [ht2, Option.map_some'] at ht3
      refine ⟨_, ht3, ?_⟩
      by_cases hc : (tf.fid == fid) = true <;> simp [hc]

/-- Witness for C2: deleting folder 1 without a target is blocked with
count 3; with target folder 2 it succeeds, resource 11 moves, and the
target's count becomes 3. -/
theorem folder_delete_cascade_witness :
    deleteFolder 1 none stC2 = (.blocked 3, stC2)
    ∧ (deleteFolder 1 (some 2) stC2).1 = .deleted
    ∧ { mkRes 11 100 (some 1) none true with folder := some 2 }
        ∈ (deleteFolder 1 (some 2) stC2).2.resources
    ∧ (∃ tf2, findFolder 2 (deleteFolder 1 (some 2) stC2).2 = some tf2
        ∧ tf2.resourceCount = 3) := by
  have h := folder_delete_cascade stC2 1 2 fA fB (by decide) (by decide)
  have h2 := h.2 (by decide) (by decide)
  refine ⟨h.1, h2.1, ?_, ?_⟩
  · exact h2.2.1 (mkRes 11 100 (some 1) none true) (by decide) (by decide) (by decide)
  · rcases h2.2.2 with ⟨tf2, hfind, hrc⟩
    refine ⟨tf2, hfind, ?_⟩
    rw [hrc]
    decide

/-! ## Frame lemmas for the field-update block of `updateResource` -/

/-- `applyTitle` can only change `title`. -/
theorem applyTitle_proj (o : Option String) (r : Resource) :
    (applyTitle o r).rid = r.rid ∧ (applyTitle o r).rtype = r.rtype
    ∧ (applyTitle o r).publicId = r.publicId ∧ (applyTitle o r).format = r.format
    ∧ (applyTitle o r).size = r.size ∧ (applyTitle o r).files = r.files
    ∧ (applyTitle o r).isActive = r.isActive ∧ (applyTitle o r).url = r.url := by
  cases o with
  | none => exact ⟨rfl, rfl, rfl, rfl, rfl, rfl, rfl, rfl⟩
  | some t =>
    simp only [applyTitle]
    split_ifs <;> exact ⟨rfl, rfl, rfl, rfl, rfl, rfl, rfl, rfl⟩

/-- `applyDescription` can only change `description`. -/
theorem applyDescription_proj (o : Option String) (r : Resource) :
    (applyDescription o r).rid = r.rid ∧ (applyDescription o r).rtype = r.rtype
    ∧ (applyDescription o r).publicId = r.publicId ∧ (applyDescription o r).format = r.format
    ∧ (applyDescription o r).size = r.size ∧ (applyDescription o r).files = r.files
    ∧ (applyDescription o r).isActive = r.isActive ∧ (applyDescription o r).title = r.title
    ∧ (applyDescription o r).url = r.url := by
  cases o <;> exact ⟨rfl, rfl, rfl, rfl, rfl, rfl, rfl, rfl, rfl⟩

/-- `applyUrl` can only change `url`. -/
theorem applyUrl_proj (o : Option String) (r : Resource) :
    (applyUrl o r).rid = r.rid ∧ (applyUrl o r).rtype = r.rtype
    ∧ (applyUrl o r).publicId = r.publicId ∧ (applyUrl o r).format = r.format
    ∧ (applyUrl o r).size = r.size ∧ (applyUrl o r).files = r.files
    ∧ (applyUrl o r).isActive = r.isActive ∧ (applyUrl o r).title = r.title := by
  cases o with
  | none => exact ⟨rfl, rfl, rfl, rfl, rfl, rfl, rfl, rfl⟩
  | some u =>
    simp only [applyUrl]
    split_ifs <;> exact ⟨rfl, rfl, rfl, rfl, rfl, rfl, rfl, rfl⟩

/-- On a non-link resource `applyUrl` leaves `url` alone. -/
theorem applyUrl_url_of_not_link (o : Option String) (r : Resource)
    (h : (r.rtype == "link") = false) : (applyUrl o r).url = r.url := by
  cases o with
  | none => rfl
  | some u =>
    simp only [applyUrl]
    split_ifs <;> simp_all

/-- `applyLinkType` can only change `linkType`. -/
theorem applyLinkType_proj (o : Option String) (r : Resource) :
    (applyLinkType o r).rid = r.rid ∧ (applyLinkType o r).rtype = r.rtype
    ∧ (applyLinkType o r).publicId = r.publicId ∧ (applyLinkType o r).format = r.format
    ∧ (applyLinkType o r).size = r.size ∧ (applyLinkType o r).files = r.files
    ∧ (applyLinkType o r).isActive = r.isActive ∧ (applyLinkType o r).title = r.title
    ∧ (applyLinkType o r).url = r.url := by
  cases o with
  | none => exact ⟨rfl, rfl, rfl, rfl, rfl, rfl, rfl, rfl, rfl⟩
  | some lt =>
    simp only [applyLinkType]
    split_ifs <;> exact ⟨rfl, rfl, rfl, rfl, rfl, rfl, rfl, rfl, rfl⟩

/-- `applyFolder` can only change `folder`. -/
theorem applyFolder_proj (o : Option (Option Nat)) (r : Resource) :
    (applyFolder o r).rid = r.rid ∧ (applyFolder o r).rtype = r.rtype
    ∧ (applyFolder o r).publicId = r.publicId ∧ (applyFolder o r).format = r.format
    ∧ (applyFolder o r).size = r.size ∧ (applyFolder o r).files = r.files
    ∧ (applyFolder o r).isActive = r.isActive ∧ (applyFolder o r).title = r.title
    ∧ (applyFolder o r).url = r.url := by
  cases o <;> exact ⟨rfl, rfl, rfl, rfl, rfl, rfl, rfl, rfl, rfl⟩

/-- `applyTags` can only change `tags`. -/
theorem applyTags_proj (o : Option (List String)) (r : Resource) :
    (applyTags o r).rid = r.rid ∧ (applyTags o r).rtype = r.rtype
    ∧ (applyTags o r).publicId = r.publicId ∧ (applyTags o r).format = r.format
    ∧ (applyTags o r).size = r.size ∧ (applyTags o r).files = r.files
    ∧ (applyTags o r).isActive = r.isActive ∧ (applyTags o r).title = r.title
    ∧ (applyTags o r).url = r.url := by
  cases o <;> exact ⟨rfl, rfl, rfl, rfl, rfl, rfl, rfl, rfl, rfl⟩

/-- `applyContributors` can only change `contributors`. -/
theorem applyContributors_proj (o : Option (List String)) (r : Resource) :
    (applyContributors o r).rid = r.rid ∧ (applyContributors o r).rtype = r.rtype
    ∧ (applyContributors o r).publicId = r.publicId ∧ (applyContributors o r).format = r.format
    ∧ (applyContributors o r).size = r.size ∧ (applyContributors o r).files = r.files
    ∧ (applyContributors o r).isActive = r.isActive ∧ (applyContributors o r).title = r.title
    ∧ (applyContributors o r).url = r.url := by
  cases o <;> exact ⟨rfl, rfl, rfl, rfl, rfl, rfl, rfl, rfl, rfl⟩

/-- The update block never touches the identity, type, file metadata,
embedded files or active flag of the resource. -/
theorem applyBody_frame (b : UpdateBody) (r : Resource) :
    (applyBody b r).rid = r.rid ∧ (applyBody b r).rtype = r.rtype
    ∧ (applyBody b r).publicId = r.publicId ∧ (applyBody b r).format = r.format
    ∧ (applyBody b r).size = r.size ∧ (applyBody b r).files = r.files
    ∧ (applyBody b r).isActive = r.isActive := by
  obtain ⟨a1, a2, a3, a4, a5, a6, a7, a8⟩ := applyTitle_proj b.title r
  obtain ⟨b1, b2, b3, b4, b5, b6, b7, b8, b9⟩ :=
    applyDescription_proj b.description (applyTitle b.title r)
  obtain ⟨c1, c2, c3, c4, c5, c6, c7, c8⟩ :=
    applyUrl_proj b.url (applyDescription b.description (applyTitle b.title r))
  obtain ⟨d1, d2, d3, d4, d5, d6, d7, d8, d9⟩ :=
    applyLinkType_proj b.linkType
      (applyUrl b.url (applyDescription b.description (applyTitle b.title r)))
  obtain ⟨e1, e2, e3, e4, e5, e6, e7, e8, e9⟩ :=
    applyFolder_proj b.folder (applyLinkType b.linkType
      (applyUrl b.url (applyDescription b.description (applyTitle b.title r))))
  obtain ⟨f1, f2, f3, f4, f5, f6, f7, f8, f9⟩ :=
    applyTags_proj b.tags (applyFolder b.folder (applyLinkType b.linkType
      (applyUrl b.url (applyDescription b.description (applyTitle b.title r)))))
  obtain ⟨g1, g2, g3, g4, g5, g6, g7, g8, g9⟩ :=
    applyContributors_proj b.contributors (applyTags b.tags (applyFolder b.folder
      (applyLinkType b.linkType (applyUrl b.url
        (applyDescription b.description (applyTitle b.title r))))))
  refine ⟨?_, ?_, ?_, ?_, ?_, ?_, ?_⟩
  · exact g1.trans (f1.trans (e1.trans (d1.trans (c1.trans (b1.trans a1)))))
  · exact g2.trans (f2.trans (e2.trans (d2.trans (c2.trans (b2.trans a2)))))
  · exact g3.trans (f3.trans (e3.trans (d3.trans (c3.trans (b3.trans a3)))))
  · exact g4.trans (f4.trans (e4.trans (d4.trans (c4.trans (b4.trans a4)))))
  · exact g5.trans (f5.trans (e5.trans (d5.trans (c5.trans (b5.trans a5)))))
  · exact g6.trans (f6.trans (e6.trans (d6.trans (c6.trans (b6.trans a6)))))
  · exact g7.trans (f7.trans (e7.trans (d7.trans (c7.trans (b7.trans a7)))))

/-- A present, non-empty `title` in the body is stored by the update. -/
theorem applyBody_title (b : UpdateBody) (r : Resource) (t : String)
    (hb : b.title = some t) (ht : (t == "") = false) : (applyBody b r).title = t := by
  have h1 : (applyTitle b.title r).title = t := by
    rw [hb]; unfold applyTitle; simp [ht]
  have h2 := (applyDescription_proj b.description (applyTitle b.title r)).2.2.2.2.2.2.2.1
  have h3 := (applyUrl_proj b.url
    (applyDescription b.description (applyTitle b.title r))).2.2.2.2.2.2.2
  have h4 := (applyLinkType_proj b.linkType (applyUrl b.url
    (applyDescription b.description (applyTitle b.title r)))).2.2.2.2.2.2.2.1
  have h5 := (applyFolder_proj b.folder (applyLinkType b.linkType (applyUrl b.url
    (applyDescription b.description (applyTitle b.title r))))).2.2.2.2.2.2.2.1
  have h6 := (applyTags_proj b.tags (applyFolder b.folder (applyLinkType b.linkType
    (applyUrl b.url (applyDescription b.description (applyTitle b.title r)))))).2.2.2.2.2.2.2.1
  have h7 := (applyContributors_proj b.contributors (applyTags b.tags (applyFolder b.folder
    (applyLinkType b.linkType (applyUrl b.url
      (applyDescription b.description (applyTitle b.title r))))))).2.2.2.2.2.2.2.1
  exact h7.trans (h6.trans (h5.trans (h4.trans (h3.trans (h2.trans h1)))))

/-- On a non-link resource the update block leaves `url` alone. -/
theorem applyBody_url_of_not_link (b : UpdateBody) (r : Resource)
    (h : (r.rtype == "link") = false) : (applyBody b r).url = r.url := by
  have ha := applyTitle_proj b.title r
  have hb' := applyDescription_proj b.description (applyTitle b.title r)
  have hrt2 : ((applyDescription b.description (applyTitle b.title r)).rtype == "link") = false := by
    rw [hb'.2.1, ha.2.1]; exact h
  have h3 : (applyUrl b.url (applyDescription b.description (applyTitle b.title r))).url
      = (applyDescription b.description (applyTitle b.title r)).url :=
    applyUrl_url_of_not_link b.url _ hrt2
  have h4 := (applyLinkType_proj b.linkType (applyUrl b.url
    (applyDescription b.description (applyTitle b.title r)))).2.2.2.2.2.2.2.2
  have h5 := (applyFolder_proj b.folder (applyLinkType b.linkType (applyUrl b.url
    (applyDescription b.description (applyTitle b.title r))))).2.2.2.2.2.2.2.2
  have h6 := (applyTags_proj b.tags (applyFolder b.folder (applyLinkType b.linkType
    (applyUrl b.url (applyDescription b.description (applyTitle b.title r)))))).2.2.2.2.2.2.2.2
  have h7 := (applyContributors_proj b.contributors (applyTags b.tags (applyFolder b.folder
    (applyLinkType b.linkType (applyUrl b.url
      (applyDescription b.description (applyTitle b.title r))))))).2.2.2.2.2.2.2.2
  exact h7.trans (h6.trans (h5.trans (h4.trans (h3.trans (hb'.2.2.2.2.2.2.2.2.trans ha.2.2.2.2.2.2.2)))))

/-- Replacing the document with a given id by a value of the same type
leaves the collection's type column unchanged (ids are unique). -/
theorem map_rtype_replace (l : List Resource) (rid : Nat) (r v : Resource)
    (hnd : (l.map Resource.rid).Nodup) (hf : l.find? (fun x => x.rid == rid) = some r)
    (hv : v.rtype = r.rtype) :
    (l.map (fun x => if x.rid == rid then v else x)).map Resource.rtype
      = l.map Resource.rtype := by
  rw [List.map_map]
  apply List.map_congr_left
  intro x hx
  by_cases hc : (x.rid == rid) = true
  · have hr : r ∈ l := List.mem_of_find?_eq_some hf
    have hpr : (r.rid == rid) = true :=
      List.find?_some (p := fun x : Resource => x.rid == rid) hf
    have hxr : x = r := eq_of_rid_nodup hnd hx hr (by
      have h1 : x.rid = rid := by simpa using hc
      have h2 : r.rid = rid := by simpa using hpr
      rw [h1, h2])
    subst hxr
    simp [Function.comp, hc, hv]
  · simp [Function.comp, hc]

/-- The save step of `updateResource` leaves the type column unchanged
whenever the in-memory document has the found document's type. -/
theorem saveUpdated_rtype (rid : Nat) (b : UpdateBody) (r0 : Resource) (st0 : St)
    (r : Resource) (hnd : (st0.resources.map Resource.rid).Nodup)
    (hf : findResource rid st0 = some r) (hv : r0.rtype = r.rtype) :
    (saveUpdatedResource rid b r0 st0).2.resources.map Resource.rtype
      = st0.resources.map Resource.rtype := by
  unfold saveUpdatedResource mapResourceById
  exact map_rtype_replace st0.resources rid r (applyBody b r0) hnd hf
    ((applyBody_frame b r0).2.1.trans hv)

/-- Replacing by a value that itself carries the searched id makes the
replacement what a subsequent find sees. -/
theorem findResource_replace (rid : Nat) (v : Resource) (st : St) (r : Resource)
    (hf : findResource rid st = some r) (hv : (v.rid == rid) = true) :
    findResource rid
      { st with resources := st.resources.map (fun x => if x.rid == rid then v else x) }
      = some v := by
  unfold findResource at *
  have hcomm := find?_map_of_pred_inv (fun x => if x.rid == rid then v else x)
    (fun x => x.rid == rid)
    (fun a => by by_cases h : (a.rid == rid) = true <;> simp [h, hv]) st.resources
  rw [hcomm, hf, Option.map_some']
  have hp : (r.rid == rid) = true :=
    List.find?_some (p := fun x : Resource => x.rid == rid) hf
  simp [hp]

/-- Demo store for the type-immutability witness. -/
def stC9 : St :=
  { departments := [dW], folders := [], resources := [mkRes 7 100 none (some 1) true], cloud := [] }

/-- Claim C9: the resource's `type` is immutable under `updateResource` —
a `type` field in the request body is never read (so never rejected and
never applied), the type column of the store is unchanged by every update
outcome, and an update carrying other fields still succeeds. -/
theorem resource_type_immutable (rid : Nat) (b : UpdateBody)
    (reqFile : Option (Except Unit UploadRes)) (dok : Bool) (st : St)
    (hnd : (st.resources.map Resource.rid).Nodup) :
    (∀ ty, updateResource rid { b with rtype := ty } reqFile dok st
        = updateResource rid b reqFile dok st)
    ∧ (updateResource rid b reqFile dok st).2.resources.map Resource.rtype
        = st.resources.map Resource.rtype
    ∧ (∀ r t, findResource rid st = some r → r.isActive = true → reqFile = none →
        b.title = some t → (t == "") = false →
        (updateResource rid b reqFile dok st).1 = 200
        ∧ ∃ r2, findResource rid (updateResource rid b reqFile dok st).2 = some r2
            ∧ r2.title = t ∧ r2.rtype = r.rtype) := by
  refine ⟨fun ty => rfl, ?_, ?_⟩
  · cases hff : findResource rid st with
    | none =>
      have h404 : updateResource rid b reqFile dok st = (404, st) := by
        unfold updateResource; rw [hff]
      rw [h404]
    | some r =>
      cases hact : r.isActive with
      | false =>
        have h404 : updateResource rid b reqFile dok st = (404, st) := by
          unfold updateResource; rw [hff]; simp [hact]
        rw [h404]
      | true =>
        cases reqFile with
        | none =>
          have hsave : updateResource rid b none dok st = saveUpdatedResource rid b r st := by
            unfold updateResource; rw [hff]; simp [hact]
          rw [hsave]
          exact saveUpdated_rtype rid b r st r hnd hff rfl
        | some up =>
          by_cases hty : (r.rtype == "file") = true
          · cases hpid : r.publicId with
            | some pid =>
              cases dok with
              | false =>
                have h500 : updateResource rid b (some up) false st = (500, st) := by
                  unfold updateResource; rw [hff]; simp [hact, hty, hpid]
                rw [h500]
              | true =>
                cases up with
                | error e =>
                  have h500 : updateResource rid b (some (Except.error e)) true st
                      = (500, { st with cloud := st.cloud.erase pid }) := by
                    unfold updateResource; rw [hff]; simp [hact, hty, hpid]
                  rw [h500]
                | ok u =>
                  have hsave : updateResource rid b (some (Except.ok u)) true st
                      = saveUpdatedResource rid b
                          { r with url := u.secureUrl, publicId := some u.publicId,
                                   format := some u.format, size := u.bytes }
                          { st with cloud := st.cloud.erase pid ++ [u.publicId] } := by
                    unfold updateResource; rw [hff]; simp [hact, hty, hpid]
                  rw [hsave]
                  exact saveUpdated_rtype rid b _ _ r hnd hff rfl
            | none =>
              cases up with
              | error e =>
                have h500 : updateResource rid b (some (Except.error e)) dok st = (500, st) := by
                  unfold updateResource; rw [hff]; simp [hact, hty, hpid]
                rw [h500]
              | ok u =>
                have hsave : updateResource rid b (some (Except.ok u)) dok st
                    = saveUpdatedResource rid b
                        { r with url := u.secureUrl, publicId := some u.publicId,
                                 format := some u.format, size := u.bytes }
                        { st with cloud := st.cloud ++ [u.publicId] } := by
                  unfold updateResource; rw [hff]; simp [hact, hty, hpid]
                rw [hsave]
                exact saveUpdated_rtype rid b _ _ r hnd hff rfl
          · have hsave : updateResource rid b (some up) dok st = saveUpdatedResource rid b r st := by
              unfold updateResource; rw [hff]; simp [hact, hty]
            rw [hsave]
            exact saveUpdated_rtype rid b r st r hnd hff rfl
  · intro r t hff hact hreq hbt hne
    subst hreq
    have hsave : updateResource rid b none dok st = saveUpdatedResource rid b r st := by
      unfold updateResource; rw [hff]; simp [hact]
    rw [hsave]
    have hp : (r.rid == rid) = true :=
      List.find?_some (p := fun x : Resource => x.rid == rid) hff
    have hvrid : ((applyBody b r).rid == rid) = true := by
      rw [(applyBody_frame b r).1]; exact hp
    refine ⟨rfl, applyBody b r, ?_, applyBody_title b r t hbt hne, (applyBody_frame b r).2.1⟩
    unfold saveUpdatedResource mapResourceById
    exact findResource_replace rid (applyBody b r) st r hff hvrid

/-- Witness for C9 at a concrete store: a body carrying `type := "file"`
together with a new title leaves the stored type "link" and applies the
title. -/
theorem resource_type_immutable_witness :
    (updateResource 7 { title := some "new", rtype := some "file" } none true stC9
        = updateResource 7 { title := some "new" } none true stC9)
    ∧ (updateResource 7 { title := some "new", rtype := some "file" } none true stC9).2.resources.map
        Resource.rtype = stC9.resources.map Resource.rtype
    ∧ (updateResource 7 { title := some "new", rtype := some "file" } none true stC9).1 = 200
    ∧ (∃ r2, findResource 7
          (updateResource 7 { title := some "new", rtype := some "file" } none true stC9).2
          = some r2 ∧ r2.title = "new" ∧ r2.rtype = "link") := by
  have h := resource_type_immutable 7 { title := some "new" } none true stC9 (by decide)
  have h1 := h.1 (some "file")
  have h3 := h.2.2 (mkRes 7 100 none (some 1) true) "new" (by decide) (by decide) rfl rfl (by decide)
  refine ⟨h1, ?_, ?_, ?_⟩
  · rw [h1]; exact h.2.1
  · rw [h1]; exact h3.1
  · rw [h1]
    rcases h3.2 with ⟨r2, hf2, ht2, hrt2⟩
    exact ⟨r2, hf2, ht2, hrt2⟩

/-- A file-type resource holding an old Cloudinary entry. -/
def rC6 : Resource :=
  { mkRes 1 100 none (some 1) true with
      rtype := "file", publicId := some "old", format := some "pdf", size := 3 }

/-- Store for the file-replacement scenarios. -/
def stC6 : St := { departments := [dW], folders := [], resources := [rC6], cloud := ["old"] }

/-- The replacement upload used in the file-replacement scenarios. -/
def upNew : UploadRes := { secureUrl := "u2", publicId := "new", format := "pdf", bytes := 4 }

/-- Claim C6 counterexample: on a file resource with a stored publicId,
when the destroy of the old object-storage entry fails, the update does
NOT still succeed — `await cloudinary.uploader.destroy` is un-guarded, so
the handler answers 500 and nothing is recorded, even though the very
same request succeeds when the destroy works. -/
theorem update_destroy_failure_aborts_update :
    updateResource 1 {} (some (Except.ok upNew)) false stC6 = (500, stC6)
    ∧ (updateResource 1 {} (some (Except.ok upNew)) true stC6).1 = 200
    ∧ findResource 1 stC6 = some rC6 ∧ rC6.rtype = "file" ∧ rC6.publicId = some "old" := by
  decide

/-- Claim C6 (amended): supplying a new binary payload to a file resource
deletes the previous object-storage entry and records the new file's
url/publicId/format/size; but if the old entry's deletion fails, the
whole update fails (500) with the store unchanged — the failure
propagates instead of being logged-and-continued. -/
theorem update_replaces_file (st : St) (rid : Nat) (r : Resource) (pid : String)
    (b : UpdateBody) (up : UploadRes)
    (hf : findResource rid st = some r) (ha : r.isActive = true)
    (ht : r.rtype = "file") (hp : r.publicId = some pid) :
    ((updateResource rid b (some (Except.ok up)) true st).1 = 200
      ∧ (updateResource rid b (some (Except.ok up)) true st).2.cloud
          = st.cloud.erase pid ++ [up.publicId]
      ∧ (∃ r2, findResource rid (updateResource rid b (some (Except.ok up)) true st).2 = some r2
          ∧ r2.url = up.secureUrl ∧ r2.publicId = some up.publicId
          ∧ r2.format = some up.format ∧ r2.size = up.bytes))
    ∧ (∀ o, updateResource rid b (some o) false st = (500, st)) := by
  have hty : (r.rtype == "file") = true := by simp [ht]
  have hp' : (r.rid == rid) = true :=
    List.find?_some (p := fun x : Resource => x.rid == rid) hf
  have hupd : updateResource rid b (some (Except.ok up)) true st
      = saveUpdatedResource rid b
          { r with url := up.secureUrl, publicId := some up.publicId,
                   format := some up.format, size := up.bytes }
          { st with cloud := st.cloud.erase pid ++ [up.publicId] } := by
    unfold updateResource; rw [hf]; simp [ha, hty, hp]
  constructor
  · rw [hupd]
    refine ⟨rfl, rfl, ?_⟩
    set r1 : Resource :=
      { r with url := up.secureUrl, publicId := some up.publicId,
               format := some up.format, size := up.bytes } with hr1
    have hnl : (r1.rtype == "link") = false := by simp [hr1, ht]
    have hvrid : ((applyBody b r1).rid == rid) = true := by
      rw [(applyBody_frame b r1).1]; exact hp'
    refine ⟨applyBody b r1, ?_, ?_, ?_, ?_, ?_⟩
    · unfold saveUpdatedResource mapResourceById
      exact findResource_replace rid (applyBody b r1)
        { st with cloud := st.cloud.erase pid ++ [up.publicId] } r hf hvrid
    · exact (applyBody_url_of_not_link b r1 hnl).trans rfl
    · exact (applyBody_frame b r1).2.2.1.trans rfl
    · exact (applyBody_frame b r1).2.2.2.1.trans rfl
    · exact (applyBody_frame b r1).2.2.2.2.1.trans rfl
  · intro o
    unfold updateResource; rw [hf]; simp [ha, hty, hp]

/-- Witness for the amended C6 at the concrete store. -/
theorem update_replaces_file_witness :
    ((updateResource 1 {} (some (Except.ok upNew)) true stC6).1 = 200
      ∧ (updateResource 1 {} (some (Except.ok upNew)) true stC6).2.cloud = ["new"]
      ∧ (∃ r2, findResource 1 (updateResource 1 {} (some (Except.ok upNew)) true stC6).2 = some r2
          ∧ r2.url = "u2" ∧ r2.publicId = some "new"))
    ∧ updateResource 1 {} (some (Except.error ())) false stC6 = (500, stC6) := by
  have h := update_replaces_file stC6 1 rC6 "old" {} upNew
    (by decide) (by decide) (by decide) (by decide)
  refine ⟨⟨h.1.1, ?_, ?_⟩, h.2 (Except.error ())⟩
  · rw [h.1.2.1]; decide
  · rcases h.1.2.2 with ⟨r2, hf2, hu2, hpi2, _, _⟩
    exact ⟨r2, hf2, hu2, hpi2⟩

/-- Successful uploads pass `Promise.all` unchanged. -/
theorem filterMap_toOption_map_ok (ups : List UploadRes) :
    (ups.map (Except.ok (ε := Unit))).filterMap (fun o => o.toOption) = ups := by
  rw [List.filterMap_map]
  have hcomp : ((fun (o : Except Unit UploadRes) => o.toOption) ∘ Except.ok)
      = (some : UploadRes → Option UploadRes) := by
    funext u; rfl
  rw [hcomp, List.filterMap_some]

/-- The composed form `simp` normalizes the previous lemma's LHS to. -/
theorem filterMap_toOption_comp_ok (ups : List UploadRes) :
    ups.filterMap ((fun (o : Except Unit UploadRes) => o.toOption) ∘ Except.ok) = ups := by
  have hcomp : ((fun (o : Except Unit UploadRes) => o.toOption) ∘ Except.ok)
      = (some : UploadRes → Option UploadRes) := by
    funext u; rfl
  rw [hcomp, List.filterMap_some]

/-- A batch of successful uploads contains no failure. -/
theorem any_isError_map_ok (ups : List UploadRes) :
    (ups.map (Except.ok (ε := Unit))).any
      (fun o => match o with | .error _ => true | .ok _ => false) = false := by
  induction ups with
  | nil => rfl
  | cons u t ih =>
    rw [List.map_cons, List.any_cons, ih]
    rfl

/-- The composed form of the previous lemma. -/
theorem any_isError_comp_ok (ups : List UploadRes) :
    ups.any ((fun (o : Except Unit UploadRes) =>
      match o with | .error _ => true | .ok _ => false) ∘ Except.ok) = false := by
  induction ups with
  | nil => rfl
  | cons u t ih =>
    rw [List.any_cons, ih]
    rfl

/-- Store for the batch-attach witness: resource 7 is active with one
pre-existing sub-file. -/
def stC7 : St :=
  { departments := [dW], folders := [],
    resources := [{ mkRes 7 100 none (some 1) true with
      files := [FileEntry.mk 5 "fu" (some "fp") "pdf" 1] }],
    cloud := ["fp"] }

/-- Claim C7: `addFilesToResource` accepts 1..10 payloads (an empty batch
is a 400, more than 10 are rejected by the route's multer bound before the
handler runs) and is all-or-nothing on the resource's `files` list: if
every upload succeeds exactly the uploaded files are appended, and if any
single upload fails the whole batch fails with the stored list — indeed
the whole resource collection — unchanged. -/
theorem add_files_all_or_nothing (st : St) (rid : Nat) (r : Resource) (nextId : Nat)
    (hf : findResource rid st = some r) (ha : r.isActive = true) :
    addFilesToResource rid [] nextId st = (400, st)
    ∧ (∀ ups : List UploadRes, ups ≠ [] →
        (addFilesToResource rid (ups.map Except.ok) nextId st).1 = 200
        ∧ ∃ r2, findResource rid (addFilesToResource rid (ups.map Except.ok) nextId st).2 = some r2
            ∧ r2.files = r.files ++ ups.enum.map (fun p =>
                FileEntry.mk (nextId + p.1) p.2.secureUrl (some p.2.publicId) p.2.format p.2.bytes))
    ∧ (∀ uploads : List (Except Unit UploadRes), uploads ≠ [] →
        (∃ e, Except.error e ∈ uploads) →
        (addFilesToResource rid uploads nextId st).1 = 500
        ∧ (addFilesToResource rid uploads nextId st).2.resources = st.resources)
    ∧ (∀ a : Actor, ∀ uploads : List (Except Unit UploadRes), uploads.length > 10 →
        addFilesRoute (some a) rid uploads nextId st = (gate [Role.member, Role.comanager] (some a) |>.getD 500, st)) := by
  refine ⟨?_, ?_, ?_, ?_⟩
  · unfold addFilesToResource; rw [hf]; simp [ha]
  · intro ups hne
    have hemp : (ups.map (Except.ok (ε := Unit))).isEmpty = false := by
      cases ups with
      | nil => exact absurd rfl hne
      | cons u t => rfl
    have hadd : addFilesToResource rid (ups.map Except.ok) nextId st
        = (200, mapResourceById rid
            (fun x => { x with files := x.files ++ ups.enum.map (fun p =>
              FileEntry.mk (nextId + p.1) p.2.secureUrl (some p.2.publicId) p.2.format p.2.bytes) })
            { st with cloud := st.cloud ++ ups.map (fun u => u.publicId) }) := by
      unfold addFilesToResource
      rw [hf]
      simp [ha, hemp, any_isError_map_ok, filterMap_toOption_map_ok,
        any_isError_comp_ok, filterMap_toOption_comp_ok]
    rw [hadd]
    refine ⟨rfl, ?_⟩
    refine ⟨{ r with files := r.files ++ ups.enum.map (fun p =>
      FileEntry.mk (nextId + p.1) p.2.secureUrl (some p.2.publicId) p.2.format p.2.bytes) }, ?_, rfl⟩
    exact findResource_mapResourceById_self rid
      (fun x => { x with files := x.files ++ ups.enum.map (fun p =>
        FileEntry.mk (nextId + p.1) p.2.secureUrl (some p.2.publicId) p.2.format p.2.bytes) })
      (fun x => rfl) _ r hf
  · intro uploads hne ⟨e, hmem⟩
    have hemp : uploads.isEmpty = false := by
      cases uploads with
      | nil => exact absurd rfl hne
      | cons u t => rfl
    have hany : uploads.any (fun o => match o with | .error _ => true | .ok _ => false) = true :=
      List.any_eq_true.mpr ⟨Except.error e, hmem, rfl⟩
    have hadd : addFilesToResource rid uploads nextId st
        = (500, { st with cloud := st.cloud
            ++ (uploads.filterMap (fun o => o.toOption)).map (fun u => u.publicId) }) := by
      unfold addFilesToResource
      rw [hf]
      simp [ha, hemp, hany]
    rw [hadd]
    exact ⟨rfl, rfl⟩
  · intro a uploads hlen
    unfold addFilesRoute
    cases hg : gate [Role.member, Role.comanager] (some a) with
    | none => simp [hlen]
    | some c => simp

/-- Witness for C7: attaching one successful upload appends exactly it;
a batch containing a failure answers 500 and leaves the collection
unchanged; an over-long batch never reaches the handler. -/
theorem add_files_all_or_nothing_witness :
    addFilesToResource 7 [] 50 stC7 = (400, stC7)
    ∧ (addFilesToResource 7 [Except.ok upNew] 50 stC7).1 = 200
    ∧ (∃ r2, findResource 7 (addFilesToResource 7 [Except.ok upNew] 50 stC7).2 = some r2
        ∧ r2.files = [FileEntry.mk 5 "fu" (some "fp") "pdf" 1,
                      FileEntry.mk 50 "u2" (some "new") "pdf" 4])
    ∧ (addFilesToResource 7 [Except.ok upNew, Except.error ()] 50 stC7).1 = 500
    ∧ (addFilesToResource 7 [Except.ok upNew, Except.error ()] 50 stC7).2.resources
        = stC7.resources := by
  have h := add_files_all_or_nothing stC7 7
    ({ mkRes 7 100 none (some 1) true with files := [FileEntry.mk 5 "fu" (some "fp") "pdf" 1] })
    50 (by decide) (by decide)
  have h2 := h.2.1 [upNew] (List.cons_ne_nil _ _)
  have h3 := h.2.2.1 [Except.ok upNew, Except.error ()] (List.cons_ne_nil _ _) ⟨(), by simp⟩
  refine ⟨h.1, h2.1, ?_, h3.1, h3.2⟩
  rcases h2.2 with ⟨r2, hf2, hfl⟩
  refine ⟨r2, hf2, ?_⟩
  rw [hfl]
  decide

/-- Resource 10 was created (uploadedBy) by user 1 and carries sub-file 5. -/
def rC1 : Resource :=
  { mkRes 10 100 none (some 1) true with files := [FileEntry.mk 5 "fu" (some "fp") "pdf" 1] }

/-- Store for the ownership scenario. -/
def stC1 : St := { departments := [dW], folders := [], resources := [rC1], cloud := ["fp"] }

/-- User 2 — a member who is NOT the creator of resource 10. -/
def actorMember2 : Option Actor := some { uid := 2, role := Role.member }

/-- User 1 — the member who created resource 10. -/
def actorCreator : Option Actor := some { uid := 1, role := Role.member }

/-- A co-manager. -/
def actorCoMgr : Option Actor := some { uid := 9, role := Role.comanager }

/-- Claim C1 evaluated on the code: `restrictTo` checks only the role, and
no controller consults `uploadedBy`, so a member who is NOT the creator of
resource 10 gets a 200 — not an AuthorizationError — on update, delete,
attach-files and detach-file, exactly like the creator and a co-manager. -/
theorem member_non_creator_mutations_succeed :
    rC1.uploadedBy = some 1
    ∧ actorMember2 = some { uid := 2, role := Role.member }
    ∧ (putResourceRoute actorMember2 10 { title := some "x" } none true stC1).1 = 200
    ∧ (deleteResourceRoute actorMember2 10 stC1).1 = 200
    ∧ (addFilesRoute actorMember2 10 [Except.ok upNew] 50 stC1).1 = 200
    ∧ (removeFileRoute actorMember2 10 "5" true stC1).1 = 200
    ∧ (putResourceRoute actorCreator 10 { title := some "x" } none true stC1).1 = 200
    ∧ (putResourceRoute actorCoMgr 10 { title := some "x" } none true stC1).1 = 200
    ∧ (putResourceRoute (some { uid := 2, role := Role.visitor }) 10
        { title := some "x" } none true stC1).1 = 403 := by
  decide

/-- Department 100 contains a soft-deleted folder named "F" and no active
folder of that name. -/
def stC8 : St :=
  { departments := [dW],
    folders := [{ fid := 1, name := "F", department := 100, resourceCount := 0, isActive := false }],
    resources := [], cloud := [] }

/-- Department 100 contains an ACTIVE folder named "F". -/
def stC8b : St :=
  { departments := [dW],
    folders := [{ fid := 1, name := "F", department := 100, resourceCount := 0, isActive := true }],
    resources := [], cloud := [] }

/-- Claim C8 evaluated on the code: creating a second active folder with
the same (name, department) is rejected as a conflict, as claimed; but
recreating the (name, department) of a soft-deleted folder does NOT
succeed — the controller's active-only duplicate check passes, and the
insert then violates the model's unconditional compound unique index over
(name, department), surfacing as a 500 instead of a 201. -/
theorem folder_recreate_after_soft_delete_fails :
    createFolder "F" 100 2 stC8b = (.conflict, stC8b)
    ∧ (∃ f, findFolder 1 stC8 = some f ∧ f.isActive = false
        ∧ f.name = "F" ∧ f.department = 100)
    ∧ createFolder "F" 100 2 stC8 = (.dbError, stC8)
    ∧ (∀ res st2, createFolder "F" 100 2 stC8 ≠ (.created res, st2)) := by
  refine ⟨by decide,
    ⟨{ fid := 1, name := "F", department := 100, resourceCount := 0, isActive := false },
      by decide, by decide, by decide, by decide⟩, by decide, ?_⟩
  intro res st2 h
  have h1 : createFolder "F" 100 2 stC8 = (.dbError, stC8) := by decide
  rw [h1] at h
  exact CreateFolderRes.noConfusion (congrArg Prod.fst h)

end GdgHub
